import Mathlib

/-!
Verification of the caching, scheduling and message-handling core of the
telegram-bot-template repository, shallowly embedded in Lean 4.

Embedded sources:
* `src/utils/gsheets.py`   — `GoogleSheetsManager` (freshness cache over the remote source)
* `src/utils/helpers.py`   — `split_message`
* `src/utils/scheduler.py` — `Scheduler._parse_admin_ids`, `Scheduler.send_urgent_notification`
* `src/handlers/payments.py` — `PaymentsHandler.get_urgent_payments`

Conventions: a Python string is its sequence of code points, modelled as
`List Char` so that every operation is structurally computable; a spreadsheet
row (`Dict[str, str]`) is an association list; clock instants (`time.time()`,
`datetime`) are integer seconds; Python `timedelta.days` is floored integer
division (`Int.fdiv`).
-/

/-- A Python string: its sequence of code points. -/
abbrev Str := List Char

/-- Python `s.split(sep)` for a one-character separator: splits on every
occurrence, keeping empty pieces; never returns an empty list. -/
def pySplit (sep : Char) : Str → List Str
  | [] => [[]]
  | c :: rest =>
    match pySplit sep rest with
    | [] => [[c]]
    | piece :: pieces =>
      if c = sep then [] :: piece :: pieces else (c :: piece) :: pieces

/-- Python `s.strip()`: remove leading and trailing whitespace. -/
def pyStrip (s : Str) : Str :=
  ((s.dropWhile Char.isWhitespace).reverse.dropWhile Char.isWhitespace).reverse

/-- A nonempty all-digit string. -/
def isDigitStr (s : Str) : Bool :=
  decide (s ≠ []) && s.all Char.isDigit

/-- Numeric value of an all-digit string. -/
def digitsToNat (s : Str) : Nat :=
  s.foldl (fun n c => n * 10 + (c.toNat - 48)) 0

namespace GSheets

/-- One row of a table, as built by `_fetch_sheet_data`: a string-keyed record
(Python `Dict[str, str]`, modelled as an association list with unique keys in
insertion order). -/
abbrev Record := List (Str × Str)

/-- Python `d[k] = v` on a dict: update the value in place if the key exists,
otherwise append at the end (dicts preserve first-insertion order). -/
def dictInsert (d : Record) (k v : Str) : Record :=
  match d with
  | [] => [(k, v)]
  | (k0, v0) :: rest =>
    if k0 = k then (k0, v) :: rest else (k0, v0) :: dictInsert rest k v

/-- Python `d.get(k, default)` on a string-keyed dict. -/
def dictGet (d : Record) (k dflt : Str) : Str :=
  match d with
  | [] => dflt
  | (k0, v0) :: rest => if k0 = k then v0 else dictGet rest k dflt

/-- Outcome of the raw Google Sheets API call made inside `_fetch_sheet_data`
(`gsheets.py` 92-135): the service may be unconfigured, the call may raise an
`HttpError` or an unexpected exception, or it returns the sheet's cell values
(a list of rows, each a list of strings, first row = headers). -/
inductive FetchResponse where
  | noService
  | httpError
  | unexpectedError
  | ok (values : List (List Str))
deriving DecidableEq, Repr

/-- The failure cases of `FetchResponse`. -/
def FetchResponse.isError : FetchResponse → Bool
  | .noService => true
  | .httpError => true
  | .unexpectedError => true
  | .ok _ => false

/-- Embedding of `_fetch_sheet_data` (`gsheets.py` 92-135): on any failure (no service,
HTTP error, unexpected exception) log and return `[]`; on success, if there
are no values return `[]`, otherwise take the first row as headers, pad every
later row with `''` to the header width, and build one dict per row. -/
def fetch_sheet_data (resp : FetchResponse) : List Record :=
  match resp with
  | .noService => []
  | .httpError => []
  | .unexpectedError => []
  | .ok values =>
    match values with
    | [] => []
    | headers :: rows =>
      rows.map (fun row =>
        let padded := row ++ List.replicate (headers.length - row.length) []
        (headers.enum.foldl (fun d ih =>
          dictInsert d ih.2 (padded.getD ih.1 [])) []))

/-- The mutable state of a `GoogleSheetsManager` (`gsheets.py` 16-27):
`_cache` and `_cache_timestamps` are dicts keyed by sheet name, and
`_cache_duration` is fixed at construction (300 seconds). -/
structure CacheState where
  cache : Str → Option (List Record)
  timestamps : Str → Option Int
  duration : Int

/-- The state right after `__init__`: empty cache, empty timestamps,
`_cache_duration = 300`. -/
def CacheState.initial : CacheState :=
  { cache := fun _ => none, timestamps := fun _ => none, duration := 300 }

/-- Embedding of `_is_cache_valid` (`gsheets.py` 137-146): false when the sheet has no
timestamp, otherwise true iff `now - cache_time < cache_duration`. -/
def is_cache_valid (s : CacheState) (now : Int) (name : Str) : Bool :=
  match s.timestamps name with
  | none => false
  | some t => now - t < s.duration

/-- Embedding of `_update_cache` (`gsheets.py` 148-152): store the fetched data and the
current time for the sheet, both in one step. -/
def update_cache (s : CacheState) (name : Str) (data : List Record)
    (now : Int) : CacheState :=
  { s with
    cache := fun n => if n = name then some data else s.cache n,
    timestamps := fun n => if n = name then some now else s.timestamps n }

/-- Embedding of `clear_cache` (`gsheets.py` 154-163): with a sheet name, pop that entry
from both dicts; with `None`, clear both dicts entirely. -/
def clear_cache (s : CacheState) (name : Option Str) : CacheState :=
  match name with
  | some n =>
    { s with
      cache := fun m => if m = n then none else s.cache m,
      timestamps := fun m => if m = n then none else s.timestamps m }
  | none =>
    { s with cache := fun _ => none, timestamps := fun _ => none }

/-- What one call to `get_sheet_data_sync` yields: the returned rows, the
manager state after the call, and whether the remote source was invoked. -/
structure GetResult where
  data : List Record
  state : CacheState
  fetched : Bool

/-- Embedding of `get_sheet_data_sync` (`gsheets.py` 74-90): if the cache is valid return
`_cache.get(name, [])` without touching the remote source; otherwise fetch,
update the cache, and return the fetched data. `resp` is the outcome the
remote call would produce, `now` the current `time.time()`. -/
def get_sheet_data_sync (s : CacheState) (now : Int) (name : Str)
    (resp : FetchResponse) : GetResult :=
  if is_cache_valid s now name then
    { data := (s.cache name).getD [], state := s, fetched := false }
  else
    let data := fetch_sheet_data resp
    { data := data, state := update_cache s name data now, fetched := true }

/-- The cross-map consistency invariant of the cache: `_cache` and
`_cache_timestamps` hold entries for exactly the same sheet names. -/
def SameKeys (s : CacheState) : Prop :=
  ∀ n : Str, (s.cache n).isSome = (s.timestamps n).isSome

end GSheets

namespace Helpers

/-- The body of the `while len(line) > max_length` hard-cut loop inside
`split_message` (`helpers.py` 157-159), with explicit fuel. The Python loop
terminates whenever `max_length >= 1` (each pass removes `max_length`
characters), so `line.length` steps of fuel are always enough there. -/
def hard_cut_go : Nat → Str → Nat → List Str × Str
  | 0, line, _ => ([], line)
  | Nat.succ fuel, line, maxLen =>
    if maxLen < line.length then
      let r := hard_cut_go fuel (line.drop maxLen) maxLen
      (line.take maxLen :: r.1, r.2)
    else ([], line)

/-- Embedding of `split_message` (`helpers.py` 138-167): an empty or short-enough message
is returned as a single chunk; otherwise the message is split on newline,
lines are greedily accumulated into `current_part` while they fit, a line
that does not fit flushes `current_part` (stripped) and becomes the new
`current_part` itself, and a too-long line arriving on an empty
`current_part` is hard-cut into `max_length`-sized chunks. -/
def split_message (text : Str) (max_length : Nat) : List Str :=
  if text = [] ∨ text.length ≤ max_length then [text]
  else
    let step := fun (acc : List Str × Str) (line : Str) =>
      let parts := acc.1
      let current_part := acc.2
      if max_length < current_part.length + line.length + 1 then
        if current_part ≠ [] then (parts ++ [pyStrip current_part], line)
        else
          let r := hard_cut_go line.length line max_length
          (parts ++ r.1, r.2)
      else
        (parts,
         if current_part = [] then line else current_part ++ '\n' :: line)
    let r := (pySplit '\n' text).foldl step ([], [])
    if r.2 ≠ [] then r.1 ++ [pyStrip r.2] else r.1

end Helpers

namespace Sched

/-- Digit part of a Python `int()` literal: nonempty ASCII digits with
optional single `_` group separators strictly between digits (PEP 515), i.e.
every `_`-delimited group is a nonempty digit run (so `_1`, `1_` and `1__0`
are all invalid while `1_0_0` is valid). -/
def isPyIntDigits (s : Str) : Bool :=
  (pySplit '_' s).all isDigitStr

/-- Numeric value of a valid `int()` digit part: the digits with the `_`
separators removed. -/
def pyIntValue (s : Str) : Nat :=
  digitsToNat (s.filter (fun c => c != '_'))

/-- Python `int(s)` on an already-stripped string: an optional sign followed
by a PEP 515 digit run (decimal digits with single `_` separators between
digits), `ValueError` (here `none`) otherwise. -/
def py_int (s : Str) : Option Int :=
  match s with
  | '-' :: rest => if isPyIntDigits rest then some (-(pyIntValue rest : Int)) else none
  | '+' :: rest => if isPyIntDigits rest then some (pyIntValue rest : Int) else none
  | _ => if isPyIntDigits s then some (pyIntValue s : Int) else none

/-- The stripped, nonempty entries of the comma-separated `ADMIN_USER_IDS`
string — the elements the comprehension in `_parse_admin_ids` iterates over. -/
def admin_entries (admin_ids_str : Str) : List Str :=
  (pySplit ',' admin_ids_str).filterMap (fun uid =>
    if pyStrip uid = [] then none else some (pyStrip uid))

/-- Embedding of `Scheduler._parse_admin_ids` (`scheduler.py` 28-38): an unset/empty
string yields `[]`; otherwise the comprehension
`[int(uid.strip()) for uid in admin_ids_str.split(',') if uid.strip()]`
is evaluated — if any entry raises `ValueError`, the whole comprehension is
abandoned and the `except` branch logs and returns `[]`. -/
def parse_admin_ids (admin_ids_str : Str) : List Int :=
  if admin_ids_str = [] then []
  else
    match (admin_entries admin_ids_str).mapM py_int with
    | some ids => ids
    | none => []

/-- Outcome of one `send_urgent_notification` call: which chat ids a send was
attempted to (in order), and which of those attempts raised. -/
structure SendReport where
  attempted : List Int
  failed : List Int
deriving DecidableEq, Repr

/-- One iteration of the `for user_id in target_users` loop of
`send_urgent_notification` (`scheduler.py` 211-219): the send is attempted,
and an exception from it (`fails uid = true`) is caught and logged. -/
def send_step (fails : Int → Bool) (r : SendReport) (uid : Int) : SendReport :=
  { attempted := r.attempted ++ [uid],
    failed := if fails uid then r.failed ++ [uid] else r.failed }

/-- Embedding of `Scheduler.send_urgent_notification` (`scheduler.py` 203-224): without a
bot, return immediately; otherwise `target_users = user_ids if user_ids else
self.admin_user_ids` (both `None` and `[]` fall back to the admins), and a
send is attempted to each target in order, a per-recipient exception
(`fails uid = true`) being caught and logged inside the loop. -/
def send_urgent_notification (hasBot : Bool) (admin_user_ids : List Int)
    (user_ids : Option (List Int)) (fails : Int → Bool) : SendReport :=
  if hasBot = false then { attempted := [], failed := [] }
  else
    let target_users :=
      match user_ids with
      | some l => if l = [] then admin_user_ids else l
      | none => admin_user_ids
    target_users.foldl (send_step fails) { attempted := [], failed := [] }

end Sched

namespace Payments

open GSheets

/-- Leap-year rule of the proleptic Gregorian calendar used by `datetime`. -/
def isLeapYear (y : Nat) : Bool :=
  (y % 4 = 0 && y % 100 ≠ 0) || y % 400 = 0

/-- Length of month `m` (1-12) in year `y`. -/
def daysInMonth (y m : Nat) : Nat :=
  if m = 2 then (if isLeapYear y then 29 else 28)
  else if m = 4 ∨ m = 6 ∨ m = 9 ∨ m = 11 then 30
  else 31

/-- Days in year `y` strictly before month `m`. -/
def daysBeforeMonth (y m : Nat) : Nat :=
  (List.range (m - 1)).foldl (fun a i => a + daysInMonth y (i + 1)) 0

/-- Rata-die day number of the calendar date `y-m-d` (days since 0000-12-31
in the proleptic Gregorian calendar); only differences of day numbers are
used, so the choice of epoch is immaterial. -/
def rataDie (y m d : Nat) : Nat :=
  365 * (y - 1) + (y - 1) / 4 - (y - 1) / 100 + (y - 1) / 400
    + daysBeforeMonth y m + d

/-- The `%d` field of CPython's `_strptime` regex,
`3[0-1]|[1-2]\d|0[1-9]|[1-9]| [1-9]`: one or two digits with value 1-31, or
a space followed by a nonzero digit. -/
def parse_day_field (ds : Str) : Option Nat :=
  match ds with
  | [' ', c] => if c.isDigit && c != '0' then some (c.toNat - 48) else none
  | _ =>
    if isDigitStr ds && ds.length ≤ 2 && 1 ≤ digitsToNat ds
        && digitsToNat ds ≤ 31 then
      some (digitsToNat ds)
    else none

/-- Embedding of `datetime.strptime(s, '%Y-%m-%d')` (`payments.py` 184), following
CPython's `_strptime` pattern `(\d\d\d\d)-(1[0-2]|0[1-9]|[1-9])-(%d field)`
matched against the whole string: the year is exactly four digits, the month
one or two digits with value 1-12, the day as in `parse_day_field`, with
literal `-` separators and nothing left over; the `datetime` constructor then
requires year >= 1 and the day valid for that month, anything else raising
`ValueError` (here `none`). Returns the day number of the parsed date (the
resulting `datetime` is that day at midnight). -/
def parse_date_ymd (s : Str) : Option Nat :=
  match pySplit '-' s with
  | [ys, ms, ds] =>
    if isDigitStr ys && ys.length = 4 && isDigitStr ms && ms.length ≤ 2 then
      match parse_day_field ds with
      | none => none
      | some d =>
        let y := digitsToNat ys
        let m := digitsToNat ms
        if 1 ≤ y ∧ 1 ≤ m ∧ m ≤ 12 ∧ 1 ≤ d ∧ d ≤ daysInMonth y m then
          some (rataDie y m d)
        else none
    else none
  | _ => none

/-- One element of the list built by `get_urgent_payments`
(`payments.py` 188-193). `fecha` is the day number of the parsed
`payment_date`. -/
structure UrgentPayment where
  fecha : Nat
  concepto : Str
  monto : Str
  dias_restantes : Int
deriving DecidableEq, Repr

/-- The column name `'fecha'` as a character sequence. -/
def fechaKey : Str := ['f', 'e', 'c', 'h', 'a']

/-- The column name `'concepto'` as a character sequence. -/
def conceptoKey : Str := ['c', 'o', 'n', 'c', 'e', 'p', 't', 'o']

/-- The column name `'monto'` as a character sequence. -/
def montoKey : Str := ['m', 'o', 'n', 't', 'o']

/-- The body of the `for payment in payments_data` loop of
`get_urgent_payments` (`payments.py` 182-195): parse the `fecha` field
(a `ValueError` skips the record via `continue`), compute
`days_until = (payment_date - current_date).days` — `payment_date` is the
parsed day at midnight, `current_date` the current instant `now` in seconds,
and `timedelta.days` floors — and keep the record iff
`0 <= days_until <= 7`. -/
def urgent_entry (now : Int) (payment : Record) : Option UrgentPayment :=
  match parse_date_ymd (dictGet payment fechaKey []) with
  | none => none
  | some day =>
    let days_until := Int.fdiv ((day : Int) * 86400 - now) 86400
    if 0 ≤ days_until ∧ days_until ≤ 7 then
      some { fecha := day, concepto := dictGet payment conceptoKey [],
             monto := dictGet payment montoKey [],
             dias_restantes := days_until }
    else none

/-- Embedding of `PaymentsHandler.get_urgent_payments` (`payments.py` 172-197), applied to
the rows `payments_data` that `get_sheet_data_sync('pagos')` returned at
instant `now`: an empty result short-circuits to `[]`; otherwise the loop
appends the surviving records, in input order, to `urgent_payments`.
`urgent_step` is one iteration of that loop. -/
def urgent_step (now : Int) (urgent_payments : List UrgentPayment)
    (payment : Record) : List UrgentPayment :=
  match urgent_entry now payment with
  | some e => urgent_payments ++ [e]
  | none => urgent_payments

def get_urgent_payments (payments_data : List Record) (now : Int) :
    List UrgentPayment :=
  if payments_data = [] then []
  else payments_data.foldl (urgent_step now) []

end Payments

/-- The sheet name `'pagos'` as a character sequence. -/
def pagosKey : Str := ['p', 'a', 'g', 'o', 's']

/-- A cache state holding one fresh entry: the state of a manager right after
its first successful fetch of the `pagos` sheet (at instant 0, empty sheet). -/
def sampleCache : GSheets.CacheState :=
  GSheets.update_cache GSheets.CacheState.initial pagosKey [] 0

open GSheets Helpers Sched Payments

/-- Accumulator form of the urgent-payments loop: folding `urgent_step`
computes `filterMap` of `urgent_entry` after the accumulator. -/
theorem urgent_foldl (now : Int) (l : List Record)
    (acc : List UrgentPayment) :
    l.foldl (urgent_step now) acc = acc ++ l.filterMap (urgent_entry now) := by
  induction l generalizing acc with
  | nil => simp
  | cons p rest ih =>
    simp only [List.foldl_cons]
    rw [ih]
    cases h : urgent_entry now p <;>
      simp [urgent_step, h, List.filterMap_cons]

/-- The delivery loop of `send_urgent_notification` attempts a send to every
target, whatever the failure pattern: its `attempted` component collects the
whole target list after the accumulator. -/
theorem send_attempted_foldl (fails : Int → Bool) (l : List Int)
    (r : SendReport) :
    (l.foldl (send_step fails) r).attempted = r.attempted ++ l := by
  induction l generalizing r with
  | nil => simp
  | cons uid rest ih =>
    simp only [List.foldl_cons]
    rw [ih]
    simp [send_step]

/-- C1 (counterexample): `get_urgent_payments` does not sort its result by
date — with the records dated 2024-01-03 and 2024-01-01 in that order and the
current instant at midnight of 2024-01-01, both records are urgent but are
returned in input order, which is not ascending by date. -/
theorem c1_counterexample :
    ¬ List.Pairwise (fun a b => a.fecha ≤ b.fecha)
      (get_urgent_payments
        [[(fechaKey, ['2', '0', '2', '4', '-', '0', '1', '-', '0', '3'])],
         [(fechaKey, ['2', '0', '2', '4', '-', '0', '1', '-', '0', '1'])]]
        (86400 * (rataDie 2024 1 1 : Int))) := by decide

/-- C1 (amended): for every list of payment records, `get_urgent_payments`
returns exactly those records whose `fecha` field parses in `%Y-%m-%d` format
and whose days-until-now satisfies `0 ≤ days_until ≤ 7`, in the input order
(not sorted), with unparseable dates silently excluded; in particular, for
records dated today, today+3, today+10, an invalid date and today-1 (with
"today" = 2024-01-01 and the current instant at its midnight) it returns
exactly the today and today+3 records with 0 and 3 days remaining.
The date parser mirrors CPython `strptime`: a 1-digit year such as `5-01-01`
raises (the `%Y` field is exactly four digits) while the space-padded day
`2024-01- 5` parses to 2024-01-05. -/
theorem c1_urgent_filter :
    (∀ (payments_data : List Record) (now : Int),
        get_urgent_payments payments_data now
          = payments_data.filterMap (urgent_entry now))
    ∧ get_urgent_payments
        [[(fechaKey, ['2', '0', '2', '4', '-', '0', '1', '-', '0', '1'])],
         [(fechaKey, ['2', '0', '2', '4', '-', '0', '1', '-', '0', '4'])],
         [(fechaKey, ['2', '0', '2', '4', '-', '0', '1', '-', '1', '1'])],
         [(fechaKey, ['i', 'n', 'v', 'a', 'l', 'i', 'd', '-', 'd', 'a', 't', 'e'])],
         [(fechaKey, ['2', '0', '2', '3', '-', '1', '2', '-', '3', '1'])]]
        (86400 * (rataDie 2024 1 1 : Int))
      = [{ fecha := rataDie 2024 1 1, concepto := [], monto := [],
           dias_restantes := 0 },
         { fecha := rataDie 2024 1 4, concepto := [], monto := [],
           dias_restantes := 3 }]
    ∧ parse_date_ymd ['5', '-', '0', '1', '-', '0', '1'] = none
    ∧ parse_date_ymd ['2', '0', '2', '4', '-', '0', '1', '-', ' ', '5']
        = some (rataDie 2024 1 5) := by
  refine ⟨?_, by decide, by decide, by decide⟩
  · intro payments_data now
    unfold get_urgent_payments
    by_cases hd : payments_data = []
    · simp [hd]
    · simp only [hd, if_false]
      simpa using urgent_foldl now payments_data []

/-- C2: `split_message` is meant to cut any message into chunks that each
respect the limit, but when a line longer than the limit follows a nonempty
accumulated part, the flushed-in line is never hard-cut: for the message
`"a\nbbbbb"` with limit 4 the code returns the chunk `"bbbbb"` of length 5,
exceeding the limit. -/
theorem c2_overlong_chunk :
    split_message ['a', '\n', 'b', 'b', 'b', 'b', 'b'] 4
      = [['a'], ['b', 'b', 'b', 'b', 'b']]
    ∧ ¬ ((['b', 'b', 'b', 'b', 'b'] : Str).length ≤ 4) := by decide

/-- C3 (counterexample): `_parse_admin_ids` does not skip invalid entries
individually — on the input `"1,abc,3"` the whole comprehension is abandoned
and the result is `[]`, not the remaining valid entries `[1, 3]`. -/
theorem c3_counterexample :
    parse_admin_ids ['1', ',', 'a', 'b', 'c', ',', '3'] = []
    ∧ ([] : List Int) ≠ [1, 3] := by decide

/-- C3 (amended): parsing the comma-delimited recipient string yields the
ordered list of identifiers when every nonempty (after stripping) entry is a
valid integer, but a single invalid entry aborts the whole comprehension with
one logged error and the result degrades to `[]`, discarding the valid
entries as well; e.g. `"1, 2 ,3"` parses to `[1, 2, 3]` while `"1,abc,3"`
parses to `[]`; entry validity is Python `int()` validity, so the PEP 515
entry `"1_0"` parses to `[10]`. -/
theorem c3_parse_all_or_nothing :
    (∀ (s : Str) (ids : List Int),
        (admin_entries s).mapM py_int = some ids → parse_admin_ids s = ids)
    ∧ (∀ s : Str,
        (admin_entries s).mapM py_int = none → parse_admin_ids s = [])
    ∧ parse_admin_ids ['1', ',', ' ', '2', ' ', ',', '3'] = [1, 2, 3]
    ∧ parse_admin_ids ['1', ',', 'a', 'b', 'c', ',', '3'] = []
    ∧ parse_admin_ids ['1', '_', '0'] = [10] := by
  refine ⟨?_, ?_, by decide, by decide, by decide⟩
  · intro s ids h
    unfold parse_admin_ids
    split
    · next hs =>
      subst hs
      have h0 : (admin_entries ([] : Str)).mapM py_int = some [] := by decide
      rw [h0] at h
      exact Option.some.inj h
    · rw [h]
  · intro s h
    unfold parse_admin_ids
    split
    · rfl
    · rw [h]

/-- C3 (witness): the all-or-nothing characterization applied to the valid
input `"7,8"`. -/
theorem c3_witness : parse_admin_ids ['7', ',', '8'] = [7, 8] :=
  c3_parse_all_or_nothing.1 ['7', ',', '8'] [7, 8] (by decide)

/-- C4: after a fetch of table `T` stored at time `t0`, a get at time `t1`
with `t1 - t0 < cache_duration` returns the identical cached record sequence
without invoking the remote source and leaves the state unchanged, while a
get with `t1 - t0 ≥ cache_duration` invokes the source again and stores the
new result with the new timestamp. -/
theorem c4_freshness (s : CacheState) (T : Str) (recs : List Record)
    (t0 t1 : Int) (resp : FetchResponse)
    (hc : s.cache T = some recs) (ht : s.timestamps T = some t0) :
    (t1 - t0 < s.duration →
      get_sheet_data_sync s t1 T resp
        = { data := recs, state := s, fetched := false })
    ∧ (s.duration ≤ t1 - t0 →
      (get_sheet_data_sync s t1 T resp).fetched = true
      ∧ (get_sheet_data_sync s t1 T resp).data = fetch_sheet_data resp
      ∧ (get_sheet_data_sync s t1 T resp).state.cache T
          = some (fetch_sheet_data resp)
      ∧ (get_sheet_data_sync s t1 T resp).state.timestamps T = some t1) := by
  constructor
  · intro hlt
    have hv : is_cache_valid s t1 T = true := by
      simp [is_cache_valid, ht, hlt]
    simp [get_sheet_data_sync, hv, hc]
  · intro hge
    have hv : is_cache_valid s t1 T = false := by
      simp only [is_cache_valid, ht]
      simpa using not_lt.mpr hge
    simp [get_sheet_data_sync, hv, update_cache]

/-- C4 (witness): with one entry fetched at time 0 and duration 300, a get at
time 100 serves the cached data without fetching, and a get at time 400
fetches again. -/
theorem c4_witness :
    get_sheet_data_sync sampleCache 100 pagosKey .noService
      = { data := [], state := sampleCache, fetched := false }
    ∧ (get_sheet_data_sync sampleCache 400 pagosKey .httpError).fetched
        = true :=
  ⟨(c4_freshness sampleCache pagosKey [] 0 100 .noService (by decide)
      (by decide)).1 (by decide),
   ((c4_freshness sampleCache pagosKey [] 0 400 .httpError (by decide)
      (by decide)).2 (by decide)).1⟩

/-- C5: invalidating a table — `clear_cache` of that table, or `clear_cache`
of everything — followed immediately by a get of that table triggers a fresh
fetch from the remote source, regardless of the prior cache state and of how
recent the prior timestamp was. -/
theorem c5_invalidate_forces_fetch :
    ∀ (s : CacheState) (now : Int) (T : Str) (resp : FetchResponse),
      (get_sheet_data_sync (clear_cache s (some T)) now T resp).fetched = true
      ∧ (get_sheet_data_sync (clear_cache s none) now T resp).fetched
          = true := by
  intro s now T resp
  constructor <;> simp [get_sheet_data_sync, clear_cache, is_cache_valid]

/-- C6: whenever the cache cannot serve a table and the remote fetch fails —
service unavailable, HTTP error, or any unexpected error — the get returns
the empty sequence to the caller (the failure is logged at its origin and
never escapes as an exception: every branch of the embedded code returns a
value). -/
theorem c6_fetch_failure_empty (s : CacheState) (now : Int) (name : Str)
    (resp : FetchResponse) (hv : is_cache_valid s now name = false)
    (he : resp.isError = true) :
    (get_sheet_data_sync s now name resp).data = [] := by
  cases resp <;>
    simp_all [get_sheet_data_sync, fetch_sheet_data, FetchResponse.isError]

/-- C6 (witness): an HTTP failure on a cold cache yields the empty
sequence. -/
theorem c6_witness :
    (get_sheet_data_sync CacheState.initial 0 pagosKey .httpError).data
      = [] :=
  c6_fetch_failure_empty CacheState.initial 0 pagosKey .httpError
    (by decide) (by decide)

/-- C7: `send_urgent_notification` attempts a send to every recipient in
order regardless of which individual sends raise; in particular with
recipients `[1, 2, 3]` and recipient 2's send raising, sends are attempted to
1, 2 and 3 and only 2 is recorded as failed. -/
theorem c7_broadcast_resilience :
    (∀ (admin_user_ids : List Int) (fails : Int → Bool)
        (recipients : List Int), recipients ≠ [] →
        (send_urgent_notification true admin_user_ids (some recipients)
            fails).attempted = recipients)
    ∧ send_urgent_notification true [] (some [1, 2, 3]) (fun uid => uid == 2)
        = { attempted := [1, 2, 3], failed := [2] } := by
  refine ⟨?_, by decide⟩
  intro admin fails l hl
  simp [send_urgent_notification, hl, send_attempted_foldl]

/-- C7 (witness): the broadcast theorem applied to recipients `[5, 6]` with
no failures. -/
theorem c7_witness :
    (send_urgent_notification true [] (some [5, 6])
        (fun _ => false)).attempted = [5, 6] :=
  c7_broadcast_resilience.1 [] (fun _ => false) [5, 6] (by decide)

/-- C8: every cache operation — refresh (`_update_cache`, also as performed
by a get), clear-one and clear-all — preserves the invariant that the record
map and the timestamp map hold exactly the same table keys, and a refresh
stores the records and the timestamp of that same fetch together. -/
theorem c8_cache_consistency (s : CacheState) (h : SameKeys s) (T : Str)
    (data : List Record) (t now : Int) (resp : FetchResponse) :
    SameKeys (update_cache s T data t)
    ∧ (update_cache s T data t).cache T = some data
    ∧ (update_cache s T data t).timestamps T = some t
    ∧ SameKeys (clear_cache s (some T))
    ∧ SameKeys (clear_cache s none)
    ∧ SameKeys (get_sheet_data_sync s now T resp).state := by
  refine ⟨?_, by simp [update_cache], by simp [update_cache], ?_, ?_, ?_⟩
  · intro n
    by_cases hn : n = T <;> simp [update_cache, hn, h n]
  · intro n
    by_cases hn : n = T <;> simp [clear_cache, hn, h n]
  · intro n
    simp [clear_cache]
  · unfold get_sheet_data_sync
    split
    · exact h
    · intro n
      by_cases hn : n = T <;> simp [update_cache, hn, h n]

/-- C8 (witness): the consistency theorem applied to the freshly initialized
manager state, whose two maps are both empty. -/
theorem c8_witness : SameKeys (update_cache CacheState.initial pagosKey [] 0) :=
  (c8_cache_consistency CacheState.initial (fun _ => rfl) pagosKey [] 0 0
    .noService).1

/-- C9: a get of a table whose entry is fresh returns the cached records and
leaves the entire cache state — both maps, for every table — unchanged, with
no remote fetch. -/
theorem c9_fresh_get_frame (s : CacheState) (now : Int) (T : Str)
    (resp : FetchResponse) (h : is_cache_valid s now T = true) :
    get_sheet_data_sync s now T resp
      = { data := (s.cache T).getD [], state := s, fetched := false } := by
  simp [get_sheet_data_sync, h]

/-- C9 (witness): a fresh get on the one-entry state returns its cached
(empty) rows, does not fetch, and returns the state itself. -/
theorem c9_witness :
    (get_sheet_data_sync sampleCache 0 pagosKey .noService).fetched = false
    ∧ (get_sheet_data_sync sampleCache 0 pagosKey .noService).state
        = sampleCache := by
  have h := c9_fresh_get_frame sampleCache 0 pagosKey .noService (by decide)
  exact ⟨by rw [h], by rw [h]⟩

/-- C10: `split_message` is the identity (one unchanged chunk) on every
message whose length is at most the limit, including the empty message. -/
theorem c10_short_message_identity (text : Str) (max_length : Nat)
    (h : text.length ≤ max_length) :
    split_message text max_length = [text] := by
  unfold split_message
  rw [if_pos (Or.inr h)]

/-- C10 (witness): the identity theorem applied to a 4-character message with
limit 10. -/
theorem c10_witness :
    split_message ['h', 'o', 'l', 'a'] 10 = [['h', 'o', 'l', 'a']] :=
  c10_short_message_identity ['h', 'o', 'l', 'a'] 10 (by decide)
